import Mathlib

/-!
Verification of the Cortex backend's transcript-to-note pipeline
(`src/backend/main.py`).

The Python functions `parse_ai_response`, `call_ai`, `create_note_content`,
the preview / filename logic of `process_transcript`, the preview logic of
`list_entries` and the normalization logic of `create_folder` are embedded
shallowly below.  Python `str` values are modelled as Lean `String`
(a list of characters, matching Python's code-point semantics), Python
`dict`s built from literals or from `json.loads` are modelled as
association lists with last-occurrence-wins lookup, and the two external
library functions the code leans on (`json.loads` / `json.dumps`,
`datetime.fromisoformat` / `strftime`) are modelled by executable Lean
functions that follow the documented behaviour of the CPython versions on
the data shapes this program produces.
-/

namespace Cortex

/-! ## Python string primitives -/

/-- Python `s[:n]`: the first `n` characters of `s` (clamped). -/
def pyTake (s : String) (n : Nat) : String := String.mk (s.data.take n)

/-- Python `s[n:]` for a nonnegative index. -/
def pyDrop (s : String) (n : Nat) : String := String.mk (s.data.drop n)

/-- Python `s[a:b]` for nonnegative bounds (clamped at the end of `s`). -/
def pySlice (s : String) (a b : Nat) : String :=
  String.mk ((s.data.drop a).take (b - a))

/-- Helper for `pyFind`: first position (counting from `i`) at which
`needle` occurs. -/
def pyFindAux (needle : List Char) : List Char → Nat → Option Nat
  | [], i => if needle.isPrefixOf ([] : List Char) then some i else none
  | c :: t, i =>
      if needle.isPrefixOf (c :: t) then some i else pyFindAux needle t (i + 1)

/-- Python `hay.find(needle)`: lowest index of an occurrence, `-1` if none. -/
def pyFind (hay needle : String) : Int :=
  match pyFindAux needle.data hay.data 0 with
  | some i => (i : Int)
  | none => -1

/-- Helper for `pyRfind`: scans forward remembering the last match. -/
def pyRfindAux (needle : List Char) : List Char → Nat → Option Nat → Option Nat
  | [], i, best => if needle.isPrefixOf ([] : List Char) then some i else best
  | c :: t, i, best =>
      pyRfindAux needle t (i + 1)
        (if needle.isPrefixOf (c :: t) then some i else best)

/-- Python `hay.rfind(needle)`: highest index of an occurrence, `-1` if none. -/
def pyRfind (hay needle : String) : Int :=
  match pyRfindAux needle.data hay.data 0 none with
  | some i => (i : Int)
  | none => -1

/-- Characters stripped by Python `str.strip()` (the ASCII whitespace set;
the notes this program manipulates are ASCII). -/
def isPySpace (c : Char) : Bool :=
  c = ' ' ∨ c = '\t' ∨ c = '\n' ∨ c = '\r' ∨ c = Char.ofNat 11 ∨ c = Char.ofNat 12

/-- Python `s.strip()`: drop whitespace from both ends. -/
def pyStrip (s : String) : String :=
  String.mk (((s.data.dropWhile isPySpace).reverse.dropWhile isPySpace).reverse)

/-- Python `s.lower()` (ASCII case mapping; folder names here are ASCII). -/
def pyLower (s : String) : String := String.mk (s.data.map Char.toLower)

/-- Python `s.replace(" ", "-")`: a single-character needle and replacement,
hence a per-character map. -/
def pySpaceToHyphen (s : String) : String :=
  String.mk (s.data.map (fun c => if c = ' ' then '-' else c))

/-- Expansion of one character under `timestamp.replace("Z", "+00:00")`. -/
def expandZ (c : Char) : List Char :=
  if c = 'Z' then ['+', '0', '0', ':', '0', '0'] else [c]

/-- Python `timestamp.replace("Z", "+00:00")`: the needle is a single
character, so the replacement is a per-character expansion. -/
def replaceZ (s : String) : String := String.mk ((s.data.map expandZ).flatten)

/-! ## Python dicts as association lists

A Python `dict` built by `json.loads` keeps the **last** occurrence of a
duplicated key, and `dict.get(k, d)` returns the stored value or `d`.
We model a dict as the list of key/value pairs in insertion order and give
lookup last-occurrence-wins semantics. -/

/-- Python `dict` membership lookup: the value stored at `k`, if any
(last occurrence wins, as in `dict(...)` construction). -/
def pyDictFind {α : Type} (kvs : List (String × α)) (k : String) : Option α :=
  kvs.foldl (fun acc p => if p.1 = k then some p.2 else acc) none

/-- Python `d.get(k, default)`. -/
def pyDictGet {α : Type} (kvs : List (String × α)) (k : String) (d : α) : α :=
  (pyDictFind kvs k).getD d

/-! ## JSON values, `json.loads` and `json.dumps`

The backend calls `json.loads` on the brace-delimited span it extracts
from the classifier output and `json.dumps` on flat string-valued dict
literals.  `jsonParse` below is an executable recursive-descent parser
for JSON texts (objects, arrays, strings with the standard escapes,
integer numerals, literals); `jsonDumps` serializes a flat string dict
with CPython's default separators (`", "` and `": "`). -/

inductive JsonVal where
  | str (s : String)
  | num (n : Int)
  | bool (b : Bool)
  | null
  | arr (elems : List JsonVal)
  | obj (fields : List (String × JsonVal))

/-- Skip JSON insignificant whitespace. -/
def skipWs : List Char → List Char
  | c :: cs =>
      if c = ' ' ∨ c = '\t' ∨ c = '\n' ∨ c = '\r' then skipWs cs else c :: cs
  | [] => []

/-- Decode one hexadecimal digit. -/
def hexVal (c : Char) : Option Nat :=
  if '0' ≤ c ∧ c ≤ '9' then some (c.toNat - 48)
  else if 'a' ≤ c ∧ c ≤ 'f' then some (c.toNat - 87)
  else if 'A' ≤ c ∧ c ≤ 'F' then some (c.toNat - 55)
  else none

/-- Body of a JSON string literal, after the opening quote: returns the
decoded characters and the remainder after the closing quote. -/
def parseStringBody : List Char → Option (List Char × List Char)
  | [] => none
  | c :: rest =>
    if c = '"' then some ([], rest)
    else if c = '\\' then
      match rest with
      | [] => none
      | e :: rest2 =>
        if e = 'u' then
          match rest2 with
          | h1 :: h2 :: h3 :: h4 :: rest3 =>
            match hexVal h1, hexVal h2, hexVal h3, hexVal h4 with
            | some a, some b, some c', some d =>
              (parseStringBody rest3).map
                (fun p => (Char.ofNat (4096 * a + 256 * b + 16 * c' + d) :: p.1, p.2))
            | _, _, _, _ => none
          | _ => none
        else
          let dec : Option Char :=
            if e = '"' then some '"'
            else if e = '\\' then some '\\'
            else if e = '/' then some '/'
            else if e = 'n' then some '\n'
            else if e = 't' then some '\t'
            else if e = 'r' then some '\r'
            else if e = 'b' then some (Char.ofNat 8)
            else if e = 'f' then some (Char.ofNat 12)
            else none
          match dec with
          | some ch => (parseStringBody rest2).map (fun p => (ch :: p.1, p.2))
          | none => none
    else (parseStringBody rest).map (fun p => (c :: p.1, p.2))

/-- Does the list start with the given literal characters?  Returns the
remainder on success. -/
def dropLit : List Char → List Char → Option (List Char)
  | [], cs => some cs
  | l :: ls, c :: cs => if c = l then dropLit ls cs else none
  | _ :: _, [] => none

/-- Integer numeral (an optional minus sign and digits); JSON texts this
program receives carry only integral numbers, and a fractional or exponent
part makes the parse fail. -/
def parseIntNum (cs : List Char) : Option (Int × List Char) :=
  let (neg, cs') :=
    match cs with
    | '-' :: t => (true, t)
    | _ => (false, cs)
  let ds := cs'.takeWhile Char.isDigit
  let rest := cs'.dropWhile Char.isDigit
  if ds.length = 0 then none
  else
    match rest with
    | '.' :: _ => none
    | 'e' :: _ => none
    | 'E' :: _ => none
    | _ =>
      let n : Nat := ds.foldl (fun a c => 10 * a + (c.toNat - 48)) 0
      some (if neg then -(n : Int) else (n : Int), rest)

mutual

/-- One JSON value (fuel-indexed recursive descent). -/
def parseVal : Nat → List Char → Option (JsonVal × List Char)
  | 0, _ => none
  | fuel + 1, cs =>
    match skipWs cs with
    | [] => none
    | c :: rest =>
      if c = '"' then
        (parseStringBody rest).map (fun p => (JsonVal.str (String.mk p.1), p.2))
      else if c = '{' then
        match skipWs rest with
        | '}' :: r2 => some (JsonVal.obj [], r2)
        | r2 => (parseMembers fuel r2).map (fun p => (JsonVal.obj p.1, p.2))
      else if c = '[' then
        match skipWs rest with
        | ']' :: r2 => some (JsonVal.arr [], r2)
        | r2 => (parseElems fuel r2).map (fun p => (JsonVal.arr p.1, p.2))
      else if c = 't' then
        (dropLit ['r', 'u', 'e'] rest).map (fun r => (JsonVal.bool true, r))
      else if c = 'f' then
        (dropLit ['a', 'l', 's', 'e'] rest).map (fun r => (JsonVal.bool false, r))
      else if c = 'n' then
        (dropLit ['u', 'l', 'l'] rest).map (fun r => (JsonVal.null, r))
      else
        (parseIntNum (c :: rest)).map (fun p => (JsonVal.num p.1, p.2))

/-- Members of a JSON object, positioned at (whitespace before) a key. -/
def parseMembers : Nat → List Char → Option (List (String × JsonVal) × List Char)
  | 0, _ => none
  | fuel + 1, cs =>
    match skipWs cs with
    | [] => none
    | c :: rest =>
      if c = '"' then
        match parseStringBody rest with
        | none => none
        | some (key, r1) =>
          match skipWs r1 with
          | ':' :: r2 =>
            match parseVal fuel r2 with
            | none => none
            | some (v, r3) =>
              match skipWs r3 with
              | ',' :: r4 =>
                (parseMembers fuel r4).map
                  (fun p => ((String.mk key, v) :: p.1, p.2))
              | '\x7d' :: r4 => some ([(String.mk key, v)], r4)
              | _ => none
          | _ => none
      else none

/-- Elements of a JSON array, positioned at (whitespace before) a value. -/
def parseElems : Nat → List Char → Option (List JsonVal × List Char)
  | 0, _ => none
  | fuel + 1, cs =>
    match parseVal fuel cs with
    | none => none
    | some (v, r1) =>
      match skipWs r1 with
      | ',' :: r2 => (parseElems fuel r2).map (fun p => (v :: p.1, p.2))
      | ']' :: r2 => some ([v], r2)
      | _ => none

end

/-- Model of `json.loads`: parse the whole text as one JSON value
(trailing data other than whitespace is an error).  Every recursive call
of the descent consumes at least one character first, so `length + 1`
fuel is never exhausted on an accepted input. -/
def jsonParse (s : String) : Option JsonVal :=
  match parseVal (s.data.length + 1) s.data with
  | some (v, rest) => if skipWs rest = [] then some v else none
  | none => none

/-- Lowercase hexadecimal digit, as emitted by CPython's `json.dumps`. -/
def hexDigit (k : Nat) : Char :=
  match k % 16 with
  | 0 => '0' | 1 => '1' | 2 => '2' | 3 => '3' | 4 => '4'
  | 5 => '5' | 6 => '6' | 7 => '7' | 8 => '8' | 9 => '9'
  | 10 => 'a' | 11 => 'b' | 12 => 'c' | 13 => 'd' | 14 => 'e' | _ => 'f'

/-- Four-digit hex escape payload. -/
def hex4 (n : Nat) : List Char :=
  [hexDigit (n / 4096), hexDigit (n / 256), hexDigit (n / 16), hexDigit n]

/-- Escape one character the way CPython's `json.dumps` (with its default
`ensure_ascii=True`) does. -/
def escChar (c : Char) : List Char :=
  if c = '"' then ['\\', '"']
  else if c = '\\' then ['\\', '\\']
  else if c = '\n' then ['\\', 'n']
  else if c = '\t' then ['\\', 't']
  else if c = '\r' then ['\\', 'r']
  else if c = Char.ofNat 8 then ['\\', 'b']
  else if c = Char.ofNat 12 then ['\\', 'f']
  else if 32 ≤ c.toNat ∧ c.toNat ≤ 126 then [c]
  else if c.toNat < 65536 then '\\' :: 'u' :: hex4 c.toNat
  else
    let n := c.toNat - 65536
    ('\\' :: 'u' :: hex4 (55296 + n / 1024)) ++ ('\\' :: 'u' :: hex4 (56320 + n % 1024))

/-- A JSON string literal for `s`. -/
def jsonDumpsStr (s : String) : String :=
  "\"" ++ String.mk ((s.data.map escChar).flatten) ++ "\""

/-- Model of `json.dumps` applied to a flat dict literal whose values are
all strings — the only shape the backend serializes.  CPython's default
separators put `", "` between items and `": "` after each key. -/
def jsonDumps (fields : List (String × String)) : String :=
  "\x7b" ++ String.intercalate ", "
      (fields.map (fun p => jsonDumpsStr p.1 ++ ": " ++ jsonDumpsStr p.2)) ++ "\x7d"

/-! ## Dates: `datetime.fromisoformat` and `strftime`

The backend parses `request.timestamp.replace("Z", "+00:00")` with
`datetime.fromisoformat` and formats the result with
`strftime("%Y-%m-%d_%H-%M-%S")` (filename) and
`strftime("%B %d, %Y at %I:%M %p")` (note body).  `fromisoformatL` below
is an executable model of `datetime.fromisoformat` on extended-format
ISO-8601 strings `YYYY-MM-DD[<sep>HH[:MM[:SS[.ffffff]]]][±HH:MM]`, with
the same calendar/range validation CPython performs. -/

structure PyDateTime where
  year : Nat
  month : Nat
  day : Nat
  hour : Nat
  minute : Nat
  second : Nat
  microsecond : Nat
  utcOffsetMinutes : Option Int
deriving DecidableEq, Repr

/-- Decimal digit value of a digit character. -/
def d1 (c : Char) : Option Nat :=
  if c.isDigit then some (c.toNat - 48) else none

/-- Two decimal digits. -/
def d2v (a b : Char) : Option Nat :=
  match d1 a, d1 b with
  | some x, some y => some (10 * x + y)
  | _, _ => none

/-- Four decimal digits. -/
def d4v (a b c d : Char) : Option Nat :=
  match d1 a, d1 b, d1 c, d1 d with
  | some w, some x, some y, some z => some (1000 * w + 100 * x + 10 * y + z)
  | _, _, _, _ => none

/-- Gregorian leap year, as in CPython's `datetime`. -/
def isLeap (y : Nat) : Bool :=
  y % 4 == 0 && (y % 100 != 0 || y % 400 == 0)

/-- Days in a month, as validated by CPython's `datetime`. -/
def daysInMonth (y m : Nat) : Nat :=
  if m = 2 then (if isLeap y then 29 else 28)
  else if m = 4 ∨ m = 6 ∨ m = 9 ∨ m = 11 then 30
  else 31

/-- Fractional-second part after the dot: one to six digits, scaled to
microseconds. -/
def parseFrac (cs : List Char) : Option (Nat × List Char) :=
  let ds := cs.takeWhile Char.isDigit
  let rest := cs.dropWhile Char.isDigit
  if 1 ≤ ds.length ∧ ds.length ≤ 6 then
    some ((ds.foldl (fun a c => 10 * a + (c.toNat - 48)) 0) * 10 ^ (6 - ds.length), rest)
  else none

/-- UTC-offset suffix `±HH:MM` (or nothing), in minutes. -/
def parseOffset (cs : List Char) : Option (Option Int) :=
  match cs with
  | [] => some none
  | sgn :: o1 :: o2 :: c :: o3 :: o4 :: [] =>
    if (sgn = '+' ∨ sgn = '-') ∧ c = ':' then
      match d2v o1 o2, d2v o3 o4 with
      | some hh, some mm =>
        if hh ≤ 23 ∧ mm ≤ 59 then
          some (some ((if sgn = '-' then (-1 : Int) else 1) * (60 * hh + mm)))
        else none
      | _, _ => none
    else none
  | _ => none

/-- Time-of-day part `HH[:MM[:SS[.ffffff]]]` followed by an optional
offset. -/
def parseTimeL (cs : List Char) : Option (Nat × Nat × Nat × Nat × Option Int) :=
  match cs with
  | h1 :: h2 :: rest =>
    (d2v h1 h2).bind fun hh =>
    if hh ≤ 23 then
      match rest with
      | c :: m1 :: m2 :: rest2 =>
        if c = ':' then
          (d2v m1 m2).bind fun mm =>
          if mm ≤ 59 then
            match rest2 with
            | c2 :: s1 :: s2 :: rest3 =>
              if c2 = ':' then
                (d2v s1 s2).bind fun ss =>
                if ss ≤ 59 then
                  match rest3 with
                  | '.' :: rest4 =>
                    (parseFrac rest4).bind fun p =>
                    (parseOffset p.2).map (fun off => (hh, mm, ss, p.1, off))
                  | _ => (parseOffset rest3).map (fun off => (hh, mm, ss, 0, off))
                else none
              else (parseOffset rest2).map (fun off => (hh, mm, 0, 0, off))
            | _ => (parseOffset rest2).map (fun off => (hh, mm, 0, 0, off))
          else none
        else (parseOffset rest).map (fun off => (hh, 0, 0, 0, off))
      | _ => (parseOffset rest).map (fun off => (hh, 0, 0, 0, off))
    else none
  | _ => none

/-- Model of `datetime.fromisoformat` on a character list: a strict
`YYYY-MM-DD` date, then optionally a single separator character and a
time of day, validated against the calendar exactly as CPython does. -/
def fromisoformatL (cs : List Char) : Option PyDateTime :=
  match cs with
  | y1 :: y2 :: y3 :: y4 :: h1 :: mo1 :: mo2 :: h2 :: dd1 :: dd2 :: rest =>
    if h1 = '-' ∧ h2 = '-' then
      (d4v y1 y2 y3 y4).bind fun y =>
      (d2v mo1 mo2).bind fun mo =>
      (d2v dd1 dd2).bind fun dd =>
      if 1 ≤ y ∧ 1 ≤ mo ∧ mo ≤ 12 ∧ 1 ≤ dd ∧ dd ≤ daysInMonth y mo then
        match rest with
        | [] => some ⟨y, mo, dd, 0, 0, 0, 0, none⟩
        | _sep :: timeRest =>
          (parseTimeL timeRest).map
            (fun p => ⟨y, mo, dd, p.1, p.2.1, p.2.2.1, p.2.2.2.1, p.2.2.2.2⟩)
      else none
    else none
  | _ => none

/-- Model of `datetime.fromisoformat` on a string. -/
def fromisoformat (s : String) : Option PyDateTime := fromisoformatL s.data

/-- Decimal digit character for `k % 10`. -/
def dChar (k : Nat) : Char :=
  match k % 10 with
  | 0 => '0' | 1 => '1' | 2 => '2' | 3 => '3' | 4 => '4'
  | 5 => '5' | 6 => '6' | 7 => '7' | 8 => '8' | _ => '9'

/-- Two-digit zero-padded decimal (`%02d`), for values below 100. -/
def pad2L (n : Nat) : List Char := [dChar (n / 10), dChar n]

def pad2 (n : Nat) : String := String.mk (pad2L n)

/-- Four-digit zero-padded decimal (`%04d`), for values below 10000. -/
def pad4L (n : Nat) : List Char :=
  [dChar (n / 1000), dChar (n / 100), dChar (n / 10), dChar n]

def pad4 (n : Nat) : String := String.mk (pad4L n)

/-- `dt.strftime("%Y-%m-%d_%H-%M-%S")`, the filename prefix. -/
def strftimeFile (dt : PyDateTime) : String :=
  pad4 dt.year ++ "-" ++ pad2 dt.month ++ "-" ++ pad2 dt.day ++ "_" ++
    pad2 dt.hour ++ "-" ++ pad2 dt.minute ++ "-" ++ pad2 dt.second

/-- English month name, as produced by `%B` in the C locale. -/
def monthName : Nat → String
  | 1 => "January" | 2 => "February" | 3 => "March" | 4 => "April"
  | 5 => "May" | 6 => "June" | 7 => "July" | 8 => "August"
  | 9 => "September" | 10 => "October" | 11 => "November" | 12 => "December"
  | _ => ""

/-- Twelve-hour clock value for `%I`. -/
def hour12 (h : Nat) : Nat :=
  if h % 12 = 0 then 12 else h % 12

/-- `%p` in the C locale. -/
def amPm (h : Nat) : String := if h < 12 then "AM" else "PM"

/-- `dt.strftime("%B %d, %Y at %I:%M %p")`, the human-readable date used
inside the note body. -/
def strftimeHuman (dt : PyDateTime) : String :=
  monthName dt.month ++ " " ++ pad2 dt.day ++ ", " ++ pad4 dt.year ++
    " at " ++ pad2 (hour12 dt.hour) ++ ":" ++ pad2 dt.minute ++ " " ++ amPm dt.hour

/-- The canonical second-resolution ISO-8601 text
`YYYY-MM-DDTHH:MM:SS` for the given calendar components, as a character
list.  Used to quantify over the timestamps the pipeline receives. -/
def isoTimestampL (y mo d h mi s : Nat) : List Char :=
  dChar (y / 1000) :: dChar (y / 100) :: dChar (y / 10) :: dChar y ::
  '-' :: dChar (mo / 10) :: dChar mo ::
  '-' :: dChar (d / 10) :: dChar d ::
  'T' :: dChar (h / 10) :: dChar h ::
  ':' :: dChar (mi / 10) :: dChar mi ::
  ':' :: dChar (s / 10) :: dChar s :: []

/-- The canonical second-resolution ISO-8601 timestamp string. -/
def isoTimestamp (y mo d h mi s : Nat) : String :=
  String.mk (isoTimestampL y mo d h mi s)

/-! ## The classifier client: `call_ai` (main.py lines 250-312)

The network interaction is external; its possible outcomes are abstracted
into `ApiOutcome`.  `response st c` stands for an HTTP response with
status `st` whose body has the expected `choices[0].message.content`
shape with content `c`; `exn` stands for any exception raised during the
call or while extracting the content (both land in the same `except`
block in the source, which catches every `Exception`). -/

inductive ApiOutcome where
  | response (status : Nat) (content : String)
  | exn
deriving DecidableEq

/-- The dict literal serialized when no API key is configured
(main.py lines 255-260). -/
def call_ai_mock_fields (transcript default_folder : String) : List (String × String) :=
  [("folder", default_folder),
   ("title", if 30 < transcript.length then pyTake transcript 30 ++ "..." else transcript),
   ("summary", pyTake transcript 100),
   ("slug", "note")]

/-- The dict literal serialized on a non-200 status or an exception
(main.py lines 299-304 and 307-312, which are identical). -/
def call_ai_error_fields (transcript default_folder : String) : List (String × String) :=
  [("folder", default_folder),
   ("title", pyTake transcript 30),
   ("summary", pyTake transcript 100),
   ("slug", "note")]

/-- Embedding of `call_ai` over the abstracted network outcome.
`api_key_set` mirrors the truthiness test `if not settings.nano_gpt_api_key`. -/
def call_ai (api_key_set : Bool) (outcome : ApiOutcome)
    (transcript default_folder : String) : String :=
  if !api_key_set then
    jsonDumps (call_ai_mock_fields transcript default_folder)
  else
    match outcome with
    | .response status content =>
        if status = 200 then content
        else jsonDumps (call_ai_error_fields transcript default_folder)
    | .exn => jsonDumps (call_ai_error_fields transcript default_folder)

/-! ## The response interpreter: `parse_ai_response` (main.py lines 315-337) -/

/-- The hard-coded default classification result (main.py lines 332-337,
and the per-field defaults of lines 324-327 when every field is absent). -/
def defaultParsed (default_folder : String) : List (String × JsonVal) :=
  [("folder", JsonVal.str default_folder),
   ("title", JsonVal.str "Untitled"),
   ("summary", JsonVal.str ""),
   ("slug", JsonVal.str "note")]

/-- The brace-delimited span `response[start:end]` that the interpreter
feeds to `json.loads` (main.py lines 319-320). -/
def extractedSpan (response : String) : String :=
  pySlice response (pyFind response "\x7b").toNat ((pyRfind response "\x7d") + 1).toNat

/-- Embedding of `parse_ai_response`.  The `try/except` of the source
catches exactly the `json.JSONDecodeError` of `json.loads`, modelled by
`jsonParse` returning `none`; the parsed value of a span that starts with
`{` is necessarily an object, so the wildcard arm of the inner match is
the decode-error path. -/
def parse_ai_response (response default_folder : String) : List (String × JsonVal) :=
  let start := pyFind response "\x7b"
  let stop := pyRfind response "\x7d" + 1
  if start ≥ 0 ∧ stop > start then
    match jsonParse (extractedSpan response) with
    | some (JsonVal.obj data) =>
        [("folder", pyDictGet data "folder" (JsonVal.str default_folder)),
         ("title", pyDictGet data "title" (JsonVal.str "Untitled")),
         ("summary", pyDictGet data "summary" (JsonVal.str "")),
         ("slug", pyDictGet data "slug" (JsonVal.str "note"))]
    | _ => defaultParsed default_folder
  else defaultParsed default_folder

/-! ## The note composer and pipeline pieces (main.py lines 196-238, 340-363) -/

/-- The `preview` field of the pipeline response:
`parsed.get("summary", request.transcript[:100])` (main.py line 234). -/
def process_preview (transcript folder_hint ai_response : String) : JsonVal :=
  pyDictGet (parse_ai_response ai_response folder_hint) "summary"
    (JsonVal.str (pyTake transcript 100))

/-- The filename derivation of the pipeline (main.py lines 213-214):
parse the timestamp (with every `"Z"` replaced by `"+00:00"`) and build
`{strftime}_{slug}.md`.  `none` models the `ValueError` escaping from
`datetime.fromisoformat`. -/
def process_filename (timestamp slug : String) : Option String :=
  (fromisoformat (replaceZ timestamp)).map
    (fun dt => strftimeFile dt ++ "_" ++ slug ++ ".md")

/-- Embedding of `create_note_content` (main.py lines 340-363): `none`
models the `ValueError` of an unparseable timestamp; on success the body
is the fixed markdown template. -/
def create_note_content (transcript timestamp title folder summary : String) :
    Option String :=
  (fromisoformat (replaceZ timestamp)).map
    (fun dt =>
      "# " ++ title ++ "\n\n**Date:** " ++ strftimeHuman dt ++
        "\n**Folder:** " ++ folder ++ "\n\n---\n\n" ++ transcript ++
        "\n\n---\n\n*Captured with Cortex*\n")

/-! ## The corpus accessor (main.py lines 386-401 and 423-462) -/

structure FolderInfo where
  name : String
  count : Nat
  description : String
deriving DecidableEq, Repr

/-- The normalization `request.name.lower().replace(" ", "-")`
(main.py line 389). -/
def normalizeFolderName (name : String) : String :=
  pySpaceToHyphen (pyLower name)

/-- Embedding of `create_folder`: the filesystem is abstracted as the
list of entry names already existing under the data directory; the error
string is the `HTTPException` detail of main.py line 393, and the success
value carries the descriptor together with the new directory listing
(`folder_path.mkdir(parents=True)`). -/
def create_folder (existing : List String) (name description : String) :
    Except String (FolderInfo × List String) :=
  let folder_name := normalizeFolderName name
  if folder_name ∈ existing then
    Except.error "Folder already exists"
  else
    Except.ok (⟨folder_name, 0, description⟩, existing ++ [folder_name])

/-- The preview computation of `list_entries` for one note file
(main.py lines 433-439, and the `preview_text[:100]` truncation of
line 453). -/
def listEntryPreview (content : String) : String :=
  let separator_idx := pyFind content "---"
  let preview_text :=
    if separator_idx > 0 then
      let after_sep := pyStrip (pyDrop content (separator_idx.toNat + 3))
      let second_sep := pyFind after_sep "---"
      if second_sep > 0 then pyStrip (pyTake after_sep second_sep.toNat)
      else pyTake after_sep 100
    else pyTake content 100
  pyTake preview_text 100

/-! ## Helper lemmas -/

lemma data_mk (l : List Char) : (String.mk l).data = l := rfl

lemma strLen_append (a b : String) : (a ++ b).length = a.length + b.length := by
  show (a.data ++ b.data).length = a.data.length + b.data.length
  exact List.length_append a.data b.data

lemma pyTake_pyTake (s : String) (n : Nat) : pyTake (pyTake s n) n = pyTake s n := by
  simp [pyTake, data_mk, List.take_take]

lemma pyDictGet_def {α : Type} (kvs : List (String × α)) (k : String) (d : α) :
    pyDictGet kvs k d = (pyDictFind kvs k).getD d := rfl

/-- Lookup of each key in the four-field result literal of
`parse_ai_response`. -/
lemma dictFind_res_folder (a b c d : JsonVal) :
    pyDictFind [("folder", a), ("title", b), ("summary", c), ("slug", d)] "folder" = some a := rfl

lemma dictFind_res_title (a b c d : JsonVal) :
    pyDictFind [("folder", a), ("title", b), ("summary", c), ("slug", d)] "title" = some b := rfl

lemma dictFind_res_summary (a b c d : JsonVal) :
    pyDictFind [("folder", a), ("title", b), ("summary", c), ("slug", d)] "summary" = some c := rfl

lemma dictFind_res_slug (a b c d : JsonVal) :
    pyDictFind [("folder", a), ("title", b), ("summary", c), ("slug", d)] "slug" = some d := rfl

/-- On a successfully extracted and parsed object span, `parse_ai_response`
returns the four-field literal built by `dict.get` with the hard-coded
defaults (main.py lines 322-328). -/
lemma parse_ai_response_obj (resp f : String) (kvs : List (String × JsonVal))
    (hok : pyFind resp "\x7b" ≥ 0 ∧ pyRfind resp "\x7d" + 1 > pyFind resp "\x7b")
    (hparse : jsonParse (extractedSpan resp) = some (JsonVal.obj kvs)) :
    parse_ai_response resp f =
      [("folder", pyDictGet kvs "folder" (JsonVal.str f)),
       ("title", pyDictGet kvs "title" (JsonVal.str "Untitled")),
       ("summary", pyDictGet kvs "summary" (JsonVal.str "")),
       ("slug", pyDictGet kvs "slug" (JsonVal.str "note"))] := by
  simp only [parse_ai_response]
  rw [if_pos hok, hparse]

/-! ## Claims -/

/-- C3: every classification result produced by the interpreter carries a
value for each of the four fields `folder`, `title`, `summary`, `slug`;
none is ever absent. -/
theorem interpret_fields_total (resp f : String) :
    (pyDictFind (parse_ai_response resp f) "folder").isSome = true ∧
    (pyDictFind (parse_ai_response resp f) "title").isSome = true ∧
    (pyDictFind (parse_ai_response resp f) "summary").isSome = true ∧
    (pyDictFind (parse_ai_response resp f) "slug").isSome = true := by
  simp only [parse_ai_response]
  split
  · split
    · exact ⟨rfl, rfl, rfl, rfl⟩
    · exact ⟨rfl, rfl, rfl, rfl⟩
  · exact ⟨rfl, rfl, rfl, rfl⟩

/-- C2: on a raw text with no brace-delimited span (no `{`, or the last
`}` not after the first `{`) or whose span does not parse as JSON, the
interpreter returns the complete hard-coded default result
`folder=defaultFolder, title="Untitled", summary="", slug="note"`.
It never throws: the embedding is a total function, matching the
source's `try/except` around the only fallible call. -/
theorem interpret_default_on_malformed (resp f : String)
    (h : ¬(pyFind resp "\x7b" ≥ 0 ∧ pyRfind resp "\x7d" + 1 > pyFind resp "\x7b") ∨
         jsonParse (extractedSpan resp) = none) :
    parse_ai_response resp f = defaultParsed f := by
  simp only [parse_ai_response]
  rcases h with h | h
  · rw [if_neg h]
  · split
    · rw [h]
    · rfl

/-- Witness for C2 at the concrete classifier output `"no braces at all"`. -/
theorem interpret_default_on_malformed_witness :
    (¬(pyFind "no braces at all" "\x7b" ≥ 0 ∧
        pyRfind "no braces at all" "\x7d" + 1 > pyFind "no braces at all" "\x7b")) ∧
    parse_ai_response "no braces at all" "inbox" = defaultParsed "inbox" :=
  ⟨by decide, interpret_default_on_malformed "no braces at all" "inbox" (Or.inl (by decide))⟩

/-- C4: when the extracted span parses as a JSON object carrying only
some of the four fields, each missing field independently receives its
default (`folder→defaultFolder`, `title→"Untitled"`, `summary→""`,
`slug→"note"`) and each present field passes through unchanged. -/
theorem interpret_partial_fields (resp f : String) (kvs : List (String × JsonVal))
    (hok : pyFind resp "\x7b" ≥ 0 ∧ pyRfind resp "\x7d" + 1 > pyFind resp "\x7b")
    (hparse : jsonParse (extractedSpan resp) = some (JsonVal.obj kvs)) :
    (∀ v, pyDictFind kvs "folder" = some v →
        pyDictFind (parse_ai_response resp f) "folder" = some v) ∧
    (pyDictFind kvs "folder" = none →
        pyDictFind (parse_ai_response resp f) "folder" = some (JsonVal.str f)) ∧
    (∀ v, pyDictFind kvs "title" = some v →
        pyDictFind (parse_ai_response resp f) "title" = some v) ∧
    (pyDictFind kvs "title" = none →
        pyDictFind (parse_ai_response resp f) "title" = some (JsonVal.str "Untitled")) ∧
    (∀ v, pyDictFind kvs "summary" = some v →
        pyDictFind (parse_ai_response resp f) "summary" = some v) ∧
    (pyDictFind kvs "summary" = none →
        pyDictFind (parse_ai_response resp f) "summary" = some (JsonVal.str "")) ∧
    (∀ v, pyDictFind kvs "slug" = some v →
        pyDictFind (parse_ai_response resp f) "slug" = some v) ∧
    (pyDictFind kvs "slug" = none →
        pyDictFind (parse_ai_response resp f) "slug" = some (JsonVal.str "note")) := by
  have hre := parse_ai_response_obj resp f kvs hok hparse
  refine ⟨?_, ?_, ?_, ?_, ?_, ?_, ?_, ?_⟩
  · intro v hv
    rw [hre, dictFind_res_folder, pyDictGet_def, hv]; rfl
  · intro hv
    rw [hre, dictFind_res_folder, pyDictGet_def, hv]; rfl
  · intro v hv
    rw [hre, dictFind_res_title, pyDictGet_def, hv]; rfl
  · intro hv
    rw [hre, dictFind_res_title, pyDictGet_def, hv]; rfl
  · intro v hv
    rw [hre, dictFind_res_summary, pyDictGet_def, hv]; rfl
  · intro hv
    rw [hre, dictFind_res_summary, pyDictGet_def, hv]; rfl
  · intro v hv
    rw [hre, dictFind_res_slug, pyDictGet_def, hv]; rfl
  · intro hv
    rw [hre, dictFind_res_slug, pyDictGet_def, hv]; rfl

/-- Witness for C4 at the spec's concrete scenario: classifier text
`Sure! {"folder":"tasks","slug":"buy-milk"} Hope that helps.` yields
`{folder:"tasks", title:"Untitled", summary:"", slug:"buy-milk"}`. -/
theorem interpret_partial_fields_witness :
    (pyFind "Sure! \x7b\"folder\":\"tasks\",\"slug\":\"buy-milk\"\x7d Hope that helps." "\x7b" ≥ 0 ∧
     pyRfind "Sure! \x7b\"folder\":\"tasks\",\"slug\":\"buy-milk\"\x7d Hope that helps." "\x7d" + 1 >
       pyFind "Sure! \x7b\"folder\":\"tasks\",\"slug\":\"buy-milk\"\x7d Hope that helps." "\x7b") ∧
    pyDictFind (parse_ai_response
        "Sure! \x7b\"folder\":\"tasks\",\"slug\":\"buy-milk\"\x7d Hope that helps." "inbox")
      "folder" = some (JsonVal.str "tasks") ∧
    pyDictFind (parse_ai_response
        "Sure! \x7b\"folder\":\"tasks\",\"slug\":\"buy-milk\"\x7d Hope that helps." "inbox")
      "title" = some (JsonVal.str "Untitled") ∧
    pyDictFind (parse_ai_response
        "Sure! \x7b\"folder\":\"tasks\",\"slug\":\"buy-milk\"\x7d Hope that helps." "inbox")
      "summary" = some (JsonVal.str "") ∧
    pyDictFind (parse_ai_response
        "Sure! \x7b\"folder\":\"tasks\",\"slug\":\"buy-milk\"\x7d Hope that helps." "inbox")
      "slug" = some (JsonVal.str "buy-milk") := by
  have T := interpret_partial_fields
    "Sure! \x7b\"folder\":\"tasks\",\"slug\":\"buy-milk\"\x7d Hope that helps." "inbox"
    [("folder", JsonVal.str "tasks"), ("slug", JsonVal.str "buy-milk")]
    (by decide) rfl
  exact ⟨by decide, T.1 _ rfl, T.2.2.2.1 rfl, T.2.2.2.2.2.1 rfl, T.2.2.2.2.2.2.1 _ rfl⟩

/-- C1 counterexample: on a malformed classifier output the interpreted
summary is the empty string, yet the pipeline's `preview`
(`parsed.get("summary", transcript[:100])`, main.py line 234) is that
empty summary and not the first 100 characters of the transcript, because
the interpreter always supplies the `summary` key. -/
theorem preview_ignores_empty_summary_cex :
    pyDictFind (parse_ai_response "not json" "inbox") "summary" = some (JsonVal.str "") ∧
    process_preview "hello world" "inbox" "not json" = JsonVal.str "" ∧
    JsonVal.str "" ≠ JsonVal.str (pyTake "hello world" 100) := by
  refine ⟨rfl, rfl, ?_⟩
  intro hco
  rw [JsonVal.str.injEq] at hco
  exact absurd hco (by decide)

/-- C1 (amended): the pipeline's `preview` always equals the value the
interpreter stored under `summary`, the empty string included; the
`transcript[:100]` fallback of `parsed.get` is dead because the summary
key is never absent. -/
theorem preview_eq_interpreted_summary (transcript folder_hint ai_response : String)
    (v : JsonVal)
    (h : pyDictFind (parse_ai_response ai_response folder_hint) "summary" = some v) :
    process_preview transcript folder_hint ai_response = v := by
  unfold process_preview
  rw [pyDictGet_def, h]
  rfl

/-- Witness for the amended C1 at a concrete classifier output carrying a
summary. -/
theorem preview_eq_interpreted_summary_witness :
    pyDictFind (parse_ai_response "\x7b\"summary\": \"S\"\x7d" "inbox") "summary" =
      some (JsonVal.str "S") ∧
    process_preview "some transcript" "inbox" "\x7b\"summary\": \"S\"\x7d" = JsonVal.str "S" :=
  ⟨rfl, preview_eq_interpreted_summary "some transcript" "inbox" "\x7b\"summary\": \"S\"\x7d"
    (JsonVal.str "S") rfl⟩

/-- C7: with no credential configured the classifier client's result does
not depend on the network outcome (no call is made), and it is the JSON
serialization of the fallback object: `folder` is the default folder,
`title` is the first 30 characters with `"..."` appended exactly when the
transcript is longer than 30 characters, `summary` is the first 100
characters, `slug` is `"note"`.  In particular, the spec's scenario:
transcript `"buy milk"`, default folder `"inbox"`. -/
theorem call_ai_no_key_fallback (t f : String) (o1 o2 : ApiOutcome) :
    call_ai false o1 t f = call_ai false o2 t f ∧
    call_ai false o1 t f =
      jsonDumps [("folder", f),
                 ("title", if 30 < t.length then pyTake t 30 ++ "..." else t),
                 ("summary", pyTake t 100),
                 ("slug", "note")] ∧
    parse_ai_response (call_ai false o1 "buy milk" "inbox") "ignored" =
      [("folder", JsonVal.str "inbox"), ("title", JsonVal.str "buy milk"),
       ("summary", JsonVal.str "buy milk"), ("slug", JsonVal.str "note")] :=
  ⟨rfl, rfl, rfl⟩

/-- C10: the fallback serialized on a non-200 response or an exception
(main.py lines 299-312) has `title` equal to exactly the first 30
characters of the transcript, with no ellipsis — so for transcripts longer
than 30 characters it differs from the no-credential fallback title. -/
theorem error_fallback_title_no_ellipsis (t f c : String) (st : Nat)
    (h30 : 30 < t.length) (hst : st ≠ 200) :
    call_ai true (ApiOutcome.response st c) t f = jsonDumps (call_ai_error_fields t f) ∧
    call_ai true ApiOutcome.exn t f = jsonDumps (call_ai_error_fields t f) ∧
    pyDictFind (call_ai_error_fields t f) "title" = some (pyTake t 30) ∧
    pyDictFind (call_ai_mock_fields t f) "title" = some (pyTake t 30 ++ "...") ∧
    pyTake t 30 ≠ pyTake t 30 ++ "..." := by
  refine ⟨?_, rfl, rfl, ?_, ?_⟩
  · simp only [call_ai]
    rw [if_neg hst]
    rfl
  · show some (if 30 < t.length then pyTake t 30 ++ "..." else t) = _
    rw [if_pos h30]
  · intro hco
    have h2 := congrArg String.length hco
    rw [strLen_append] at h2
    have h3 : ("..." : String).length = 3 := rfl
    omega

/-- Witness for C10 at a concrete 31-character transcript and status 500. -/
theorem error_fallback_title_no_ellipsis_witness :
    (30 < ("abcdefghijklmnopqrstuvwxyz01234" : String).length ∧ (500 : Nat) ≠ 200) ∧
    pyDictFind (call_ai_error_fields "abcdefghijklmnopqrstuvwxyz01234" "inbox") "title" =
      some (pyTake "abcdefghijklmnopqrstuvwxyz01234" 30) :=
  ⟨by decide, (error_fallback_title_no_ellipsis "abcdefghijklmnopqrstuvwxyz01234" "inbox"
      "" 500 (by decide) (by decide)).2.2.1⟩

/-- C6: note composition fails (the `ValueError` of
`datetime.fromisoformat`, the spec's `MalformedTimestamp`) exactly when
the timestamp — after the `replace("Z", "+00:00")` mapping — is not
parseable as an ISO date-time; for parseable timestamps neither the note
body nor the filename derivation ever aborts. -/
theorem compose_fails_iff_bad_timestamp
    (transcript timestamp title folder summary slug : String) :
    (create_note_content transcript timestamp title folder summary = none ↔
       fromisoformat (replaceZ timestamp) = none) ∧
    (process_filename timestamp slug = none ↔
       fromisoformat (replaceZ timestamp) = none) := by
  unfold create_note_content process_filename
  cases fromisoformat (replaceZ timestamp) <;> simp

/-- Witness for C6: a parseable `Z`-suffixed timestamp composes, an
unparseable one does not. -/
theorem compose_fails_iff_bad_timestamp_witness :
    create_note_content "x" "2024-03-05T14:30:09Z" "t" "f" "s" ≠ none ∧
    process_filename "not a date" "slug" = none := by
  constructor
  · intro h
    exact absurd
      ((compose_fails_iff_bad_timestamp "x" "2024-03-05T14:30:09Z" "t" "f" "s" "slug").1.mp h)
      (by decide)
  · exact (compose_fails_iff_bad_timestamp "x" "not a date" "t" "f" "s" "slug").2.mpr
      (by decide)

/-- C9: folder creation normalizes the requested name to lowercase with
spaces replaced by hyphens, fails with the `AlreadyExists` error exactly
when the normalized target already exists, and otherwise creates the
directory and returns its descriptor with count 0. -/
theorem create_folder_spec (existing : List String) (name description : String) :
    (create_folder existing name description = Except.error "Folder already exists" ↔
       normalizeFolderName name ∈ existing) ∧
    (normalizeFolderName name ∉ existing →
       create_folder existing name description =
         Except.ok (⟨normalizeFolderName name, 0, description⟩,
                    existing ++ [normalizeFolderName name])) := by
  simp only [create_folder]
  by_cases hm : normalizeFolderName name ∈ existing
  · rw [if_pos hm]
    exact ⟨⟨fun _ => hm, fun _ => rfl⟩, fun hn => absurd hm hn⟩
  · rw [if_neg hm]
    exact ⟨⟨fun h => Except.noConfusion h, fun h => absurd h hm⟩, fun _ => rfl⟩

/-- Witness for C9 at the spec's scenario: creating `"My Ideas"` yields
`"my-ideas"`, and a second creation with the same input fails with the
`AlreadyExists` error. -/
theorem create_folder_spec_witness :
    ("my-ideas" ∉ (["inbox", "ideas", "tasks", "journal"] : List String) ∧
     create_folder ["inbox", "ideas", "tasks", "journal"] "My Ideas" "" =
       Except.ok (⟨"my-ideas", 0, ""⟩,
                  ["inbox", "ideas", "tasks", "journal", "my-ideas"])) ∧
    create_folder ["inbox", "ideas", "tasks", "journal", "my-ideas"] "My Ideas" "" =
      Except.error "Folder already exists" := by
  refine ⟨⟨by decide, ?_⟩, ?_⟩
  · exact ((create_folder_spec ["inbox", "ideas", "tasks", "journal"] "My Ideas" "").2
      (by decide)).trans rfl
  · exact (create_folder_spec ["inbox", "ideas", "tasks", "journal", "my-ideas"]
      "My Ideas" "").1.mpr (by decide)

/-- C8 counterexample: `"ABC---DEF"` contains exactly one horizontal-rule
separator, so the claim predicts a preview of the first 100 characters of
the whole content; the code instead returns the text after the first
separator. -/
theorem entry_preview_single_separator_cex :
    pyFind "ABC---DEF" "---" = 3 ∧
    pyFind (pyStrip (pyDrop "ABC---DEF" 6)) "---" = -1 ∧
    listEntryPreview "ABC---DEF" = "DEF" ∧
    ("DEF" : String) ≠ pyTake "ABC---DEF" 100 := by
  refine ⟨rfl, rfl, rfl, ?_⟩
  decide

/-- C8 (amended): the entry preview is the stripped text between the
first and second separators truncated to 100 characters when the first
`---` occurs at a positive index and a second `---` occurs at a positive
index of the stripped remainder; it is the first 100 characters of the
whole content when `---` is absent or at index 0; and it is the first 100
characters of the stripped text *after* the first separator (not of the
whole content) when no second separator follows at a positive index. -/
theorem entry_preview_branches (content : String) :
    (pyFind content "---" ≤ 0 → listEntryPreview content = pyTake content 100) ∧
    (0 < pyFind content "---" →
      (pyFind (pyStrip (pyDrop content ((pyFind content "---").toNat + 3))) "---" ≤ 0 →
         listEntryPreview content =
           pyTake (pyStrip (pyDrop content ((pyFind content "---").toNat + 3))) 100) ∧
      (0 < pyFind (pyStrip (pyDrop content ((pyFind content "---").toNat + 3))) "---" →
         listEntryPreview content =
           pyTake (pyStrip (pyTake (pyStrip (pyDrop content ((pyFind content "---").toNat + 3)))
             (pyFind (pyStrip (pyDrop content ((pyFind content "---").toNat + 3))) "---").toNat))
             100)) := by
  constructor
  · intro h
    simp only [listEntryPreview]
    rw [if_neg (by omega)]
    exact pyTake_pyTake content 100
  · intro h
    constructor
    · intro h2
      simp only [listEntryPreview]
      rw [if_pos h, if_neg (by omega)]
      exact pyTake_pyTake _ 100
    · intro h2
      simp only [listEntryPreview]
      rw [if_pos h, if_pos h2]

/-- Witness for the amended C8: content `"A---B"` has one separator at a
positive index and no second separator; the preview is the text after it. -/
theorem entry_preview_branches_witness :
    (0 < pyFind "A---B" "---" ∧
     pyFind (pyStrip (pyDrop "A---B" ((pyFind "A---B" "---").toNat + 3))) "---" ≤ 0) ∧
    listEntryPreview "A---B" = "B" :=
  ⟨by decide,
   (((entry_preview_branches "A---B").2 (by decide)).1 (by decide)).trans (by decide)⟩

/-! ## C5: the filename date/time segments match the timestamp

The lemmas below evaluate the embedded `fromisoformat` on the canonical
ISO text built from arbitrary in-range calendar components, with and
without the trailing `Z`. -/

lemma d1_dChar (k : Nat) : d1 (dChar k) = some (k % 10) := by
  have hlt : k % 10 < 10 := Nat.mod_lt _ (by omega)
  unfold dChar
  generalize hg : k % 10 = m at *
  interval_cases m <;> decide

lemma dChar_ne_Z (k : Nat) : dChar k ≠ 'Z' := by
  have hlt : k % 10 < 10 := Nat.mod_lt _ (by omega)
  unfold dChar
  generalize hg : k % 10 = m at *
  interval_cases m <;> decide

lemma d2v_dChar (a b : Nat) :
    d2v (dChar a) (dChar b) = some (10 * (a % 10) + b % 10) := by
  unfold d2v
  rw [d1_dChar, d1_dChar]

lemma d4v_dChar (a b c d : Nat) :
    d4v (dChar a) (dChar b) (dChar c) (dChar d) =
      some (1000 * (a % 10) + 100 * (b % 10) + 10 * (c % 10) + d % 10) := by
  unfold d4v
  rw [d1_dChar, d1_dChar, d1_dChar, d1_dChar]

lemma parseTimeL_noOff (h mi s : Nat) (hh : h ≤ 23) (hmi : mi ≤ 59) (hs : s ≤ 59) :
    parseTimeL (dChar (h / 10) :: dChar h :: ':' :: dChar (mi / 10) :: dChar mi ::
      ':' :: dChar (s / 10) :: dChar s :: []) = some (h, mi, s, 0, none) := by
  have hh' : 10 * (h / 10 % 10) + h % 10 = h := by omega
  have hmi' : 10 * (mi / 10 % 10) + mi % 10 = mi := by omega
  have hs' : 10 * (s / 10 % 10) + s % 10 = s := by omega
  simp only [parseTimeL, d2v_dChar, Option.some_bind]
  rw [hh', hmi', hs']
  simp only [if_true, if_pos hh, if_pos hmi, if_pos hs]
  rfl

lemma parseTimeL_utc (h mi s : Nat) (hh : h ≤ 23) (hmi : mi ≤ 59) (hs : s ≤ 59) :
    parseTimeL (dChar (h / 10) :: dChar h :: ':' :: dChar (mi / 10) :: dChar mi ::
      ':' :: dChar (s / 10) :: dChar s :: '+' :: '0' :: '0' :: ':' :: '0' :: '0' :: []) =
      some (h, mi, s, 0, some 0) := by
  have hh' : 10 * (h / 10 % 10) + h % 10 = h := by omega
  have hmi' : 10 * (mi / 10 % 10) + mi % 10 = mi := by omega
  have hs' : 10 * (s / 10 % 10) + s % 10 = s := by omega
  simp only [parseTimeL, d2v_dChar, Option.some_bind]
  rw [hh', hmi', hs']
  simp only [if_true, if_pos hh, if_pos hmi, if_pos hs]
  rfl

lemma daysInMonth_le (y m : Nat) : daysInMonth y m ≤ 31 := by
  unfold daysInMonth
  split
  · split <;> omega
  · split <;> omega

lemma fromiso_iso (y mo d h mi s : Nat)
    (hy1 : 1 ≤ y) (hy2 : y ≤ 9999) (hmo1 : 1 ≤ mo) (hmo2 : mo ≤ 12)
    (hd1 : 1 ≤ d) (hd2 : d ≤ daysInMonth y mo)
    (hh : h ≤ 23) (hmi : mi ≤ 59) (hs : s ≤ 59) :
    fromisoformatL (isoTimestampL y mo d h mi s) =
      some ⟨y, mo, d, h, mi, s, 0, none⟩ := by
  have hy' : 1000 * (y / 1000 % 10) + 100 * (y / 100 % 10) + 10 * (y / 10 % 10) + y % 10 = y := by
    have e1 : y / 1000 % 10 = y / 1000 := Nat.mod_eq_of_lt (by omega)
    have e2 : y / 100 / 10 = y / 1000 := by omega
    have e3 : y / 10 / 10 = y / 100 := by omega
    omega
  have hmo' : 10 * (mo / 10 % 10) + mo % 10 = mo := by omega
  have hd31 : d ≤ 31 := le_trans hd2 (daysInMonth_le y mo)
  have hd' : 10 * (d / 10 % 10) + d % 10 = d := by omega
  simp only [isoTimestampL, fromisoformatL, d4v_dChar, d2v_dChar, Option.some_bind]
  rw [hy', hmo', hd']
  simp only [and_self, if_true]
  rw [if_pos (⟨hy1, hmo1, hmo2, hd1, hd2⟩ :
    1 ≤ y ∧ 1 ≤ mo ∧ mo ≤ 12 ∧ 1 ≤ d ∧ d ≤ daysInMonth y mo)]
  rw [parseTimeL_noOff h mi s hh hmi hs]
  rfl

lemma fromiso_isoZ (y mo d h mi s : Nat)
    (hy1 : 1 ≤ y) (hy2 : y ≤ 9999) (hmo1 : 1 ≤ mo) (hmo2 : mo ≤ 12)
    (hd1 : 1 ≤ d) (hd2 : d ≤ daysInMonth y mo)
    (hh : h ≤ 23) (hmi : mi ≤ 59) (hs : s ≤ 59) :
    fromisoformatL (isoTimestampL y mo d h mi s ++ ['+', '0', '0', ':', '0', '0']) =
      some ⟨y, mo, d, h, mi, s, 0, some 0⟩ := by
  have hy' : 1000 * (y / 1000 % 10) + 100 * (y / 100 % 10) + 10 * (y / 10 % 10) + y % 10 = y := by
    have e1 : y / 1000 % 10 = y / 1000 := Nat.mod_eq_of_lt (by omega)
    have e2 : y / 100 / 10 = y / 1000 := by omega
    have e3 : y / 10 / 10 = y / 100 := by omega
    omega
  have hmo' : 10 * (mo / 10 % 10) + mo % 10 = mo := by omega
  have hd31 : d ≤ 31 := le_trans hd2 (daysInMonth_le y mo)
  have hd' : 10 * (d / 10 % 10) + d % 10 = d := by omega
  simp only [isoTimestampL, List.cons_append, List.nil_append, fromisoformatL,
    d4v_dChar, d2v_dChar, Option.some_bind]
  rw [hy', hmo', hd']
  simp only [and_self, if_true]
  rw [if_pos (⟨hy1, hmo1, hmo2, hd1, hd2⟩ :
    1 ≤ y ∧ 1 ≤ mo ∧ mo ≤ 12 ∧ 1 ≤ d ∧ d ≤ daysInMonth y mo)]
  rw [parseTimeL_utc h mi s hh hmi hs]
  rfl

lemma isoL_noZ (y mo d h mi s : Nat) :
    ∀ c ∈ isoTimestampL y mo d h mi s, c ≠ 'Z' := by
  intro c hc
  simp only [isoTimestampL, List.mem_cons, List.not_mem_nil, or_false] at hc
  rcases hc with rfl|rfl|rfl|rfl|rfl|rfl|rfl|rfl|rfl|rfl|rfl|rfl|rfl|rfl|rfl|rfl|rfl|rfl|rfl <;>
    first
    | exact dChar_ne_Z _
    | decide

lemma flatten_noZ (l : List Char) (h : ∀ c ∈ l, c ≠ 'Z') :
    (l.map expandZ).flatten = l := by
  induction l with
  | nil => rfl
  | cons c t ih =>
    simp only [List.map_cons, List.flatten_cons]
    rw [show expandZ c = [c] from by
      unfold expandZ; rw [if_neg (h c (List.mem_cons_self c t))]]
    rw [ih (fun x hx => h x (List.mem_cons_of_mem c hx))]
    rfl

/-- C5: for every in-range calendar date and time of day, written as the
canonical second-resolution ISO-8601 timestamp with or without a trailing
`Z`, the pipeline's filename is `{date}_{time}_{slug}.md` whose
`YYYY-MM-DD` date segment and `HH-MM-SS` time segment match the
timestamp's calendar date and time to the second. -/
theorem compose_filename_matches_timestamp
    (y mo d h mi s : Nat) (slug z : String)
    (hy1 : 1 ≤ y) (hy2 : y ≤ 9999) (hmo1 : 1 ≤ mo) (hmo2 : mo ≤ 12)
    (hd1 : 1 ≤ d) (hd2 : d ≤ daysInMonth y mo)
    (hh : h ≤ 23) (hmi : mi ≤ 59) (hs : s ≤ 59)
    (hz : z = "" ∨ z = "Z") :
    process_filename (isoTimestamp y mo d h mi s ++ z) slug =
      some (pad4 y ++ "-" ++ pad2 mo ++ "-" ++ pad2 d ++ "_" ++
            pad2 h ++ "-" ++ pad2 mi ++ "-" ++ pad2 s ++ "_" ++ slug ++ ".md") := by
  have hflat : ((isoTimestampL y mo d h mi s).map expandZ).flatten =
      isoTimestampL y mo d h mi s :=
    flatten_noZ _ (isoL_noZ y mo d h mi s)
  unfold process_filename fromisoformat
  rcases hz with rfl | rfl
  · have hr : (replaceZ (isoTimestamp y mo d h mi s ++ "")).data =
        isoTimestampL y mo d h mi s := by
      show ((isoTimestampL y mo d h mi s ++ ([] : List Char)).map expandZ).flatten = _
      rw [List.append_nil, hflat]
    rw [hr, fromiso_iso y mo d h mi s hy1 hy2 hmo1 hmo2 hd1 hd2 hh hmi hs]
    rfl
  · have hr : (replaceZ (isoTimestamp y mo d h mi s ++ "Z")).data =
        isoTimestampL y mo d h mi s ++ ['+', '0', '0', ':', '0', '0'] := by
      show ((isoTimestampL y mo d h mi s ++ ['Z']).map expandZ).flatten = _
      rw [List.map_append, List.flatten_append, hflat]
      rfl
    rw [hr, fromiso_isoZ y mo d h mi s hy1 hy2 hmo1 hmo2 hd1 hd2 hh hmi hs]
    rfl

/-- Witness for C5 at the concrete timestamp `2024-03-05T14:30:09Z` and
slug `buy-milk`. -/
theorem compose_filename_matches_timestamp_witness :
    (isoTimestamp 2024 3 5 14 30 9 ++ "Z" = "2024-03-05T14:30:09Z") ∧
    process_filename "2024-03-05T14:30:09Z" "buy-milk" =
      some "2024-03-05_14-30-09_buy-milk.md" := by
  refine ⟨by decide, ?_⟩
  rw [show ("2024-03-05T14:30:09Z" : String) = isoTimestamp 2024 3 5 14 30 9 ++ "Z" from by
    decide]
  exact (compose_filename_matches_timestamp 2024 3 5 14 30 9 "buy-milk" "Z"
    (by decide) (by decide) (by decide) (by decide) (by decide) (by decide)
    (by decide) (by decide) (by decide) (Or.inr rfl)).trans (by decide)

end Cortex
